import Mathlib

/-!
Verification of the zope.schema bootstrap field layer.

The error taxonomy (`ValidationError` and its subclasses, `StopValidation`)
is embedded from `src/zope/schema/_bootstrapinterfaces.py`.  The field base
class, its mixins and the concrete field kinds live in
`zope.schema._bootstrapfields`, which is not part of the source tree here
(only its tests are); those parts are modelled from the specification, as
noted on each definition.

Python values relevant to the claims are embedded as the inductive `PyVal`:
`None`, booleans, integers, text strings, byte strings, opaque objects
identified by an identity token, and the `Password.UNCHANGED_PASSWORD`
sentinel object.  Python `==` conflates booleans with their integer values
(`True == 1`), which `pyEq` reproduces through `numVal`.
-/

namespace ZSchema

/-- A Python value, as far as the claims need values: None, bool, int, str,
bytes, an opaque object with an identity, and the Password UNCHANGED sentinel
object. -/
inductive PyVal where
  | pynone
  | pybool (b : Bool)
  | pyint (n : Int)
  | pystr (s : String)
  | pybytes (s : String)
  | obj (ident : Nat)
  | unchangedPassword
deriving DecidableEq, Repr

/-- The integer value of a Python bool (`True == 1`, `False == 0`). -/
def boolToInt : Bool → Int
  | true => 1
  | false => 0

/-- The numeric value of a `PyVal`, when it is numeric: Python treats `bool`
as a subtype of `int`, so `True` counts as `1`. -/
def numVal : PyVal → Option Int
  | .pyint n => some n
  | .pybool b => some (boolToInt b)
  | _ => none

/-- Python `==` on embedded values: numeric values compare by their numeric
value (so `True == 1`), everything else compares structurally (object
identity for opaque objects). -/
def pyEq (a b : PyVal) : Bool :=
  match numVal a, numVal b with
  | some x, some y => decide (x = y)
  | _, _ => decide (a = b)

/-- Python `<` on embedded values: numeric values compare numerically,
strings lexicographically; values of incomparable kinds (where Python would
raise TypeError) compare as false. -/
def pyValLt (a b : PyVal) : Bool :=
  match numVal a, numVal b with
  | some x, some y => decide (x < y)
  | _, _ =>
    match a, b with
    | .pystr s, .pystr t => decide (s < t)
    | _, _ => false

/-- Python tuple `==` on argument tuples: elementwise `==`, equal length. -/
def argsEq : List PyVal → List PyVal → Bool
  | [], [] => true
  | a :: as, b :: bs => pyEq a b && argsEq as bs
  | _, _ => false

/-- Python tuple `<` on argument tuples: skip `==`-equal prefixes, then
compare the first differing elements with `<`; a strict prefix is smaller. -/
def argsLt : List PyVal → List PyVal → Bool
  | [], [] => false
  | [], _ :: _ => true
  | _ :: _, [] => false
  | a :: as, b :: bs => if pyEq a b then argsLt as bs else pyValLt a b

/-- The concrete ValidationError subclass of an error instance, from
`_bootstrapinterfaces.py` (RequiredMissing, WrongType, TooBig, TooSmall,
TooLong, TooShort, InvalidValue, ConstraintNotSatisfied, NotAContainer,
NotAnIterator, or the base class itself). -/
inductive VKind where
  | validationError
  | requiredMissing
  | wrongType
  | tooBig
  | tooSmall
  | tooLong
  | tooShort
  | invalidValue
  | constraintNotSatisfied
  | notAContainer
  | notAnIterator
deriving DecidableEq, Repr

/-- A `ValidationError` instance from `_bootstrapinterfaces.py`: its concrete
subclass, its construction arguments `args`, the optional `field` and `value`
back-references set by `with_field_and_value` (the field recorded by its
order number), and the object identity `ident` that the inherited
`zope.interface.Invalid.__hash__` (the default object hash) depends on. -/
structure ValidationError where
  kind : VKind
  args : List PyVal
  fieldRef : Option Nat
  value : Option PyVal
  ident : Nat
deriving DecidableEq, Repr

/-- An arbitrary Python object as seen by `ValidationError.__eq__` and
`__lt__`: either it has an `args` attribute (holding a tuple) or it does
not. -/
inductive OtherObj where
  | withArgs (args : List PyVal)
  | withoutArgs (ident : Nat)
deriving DecidableEq, Repr

/-- A ValidationError viewed as a plain object: an exception instance always
has `args`. -/
def ValidationError.toObj (e : ValidationError) : OtherObj :=
  .withArgs e.args

/-- Embeds `ValidationError.__eq__` from `_bootstrapinterfaces.py`: if
`other` has no `args` attribute the result is False, otherwise it is
`self.args == other.args`. -/
def ValidationError.eqObj (e : ValidationError) : OtherObj → Bool
  | .withoutArgs _ => false
  | .withArgs a => argsEq e.args a

/-- Embeds `ValidationError.__lt__` from `_bootstrapinterfaces.py`: if
`other` has no `args` attribute the result is True, otherwise it is
`self.args < other.args`. -/
def ValidationError.lt (e : ValidationError) : OtherObj → Bool
  | .withoutArgs _ => true
  | .withArgs a => argsLt e.args a

/-- Embeds `ValidationError.__hash__` from `_bootstrapinterfaces.py`: it is
assigned `zope.interface.Invalid.__hash__`, which is the default object
identity hash, so it depends only on the instance identity and not on
`args`. -/
def ValidationError.pyHash (e : ValidationError) : Nat :=
  e.ident

/-- Modelled from the spec: the concrete Field classes of the bootstrap
field layer that the claims mention (`_bootstrapfields.py` is not in the
source tree): the Field base itself, the Text/TextLine/Password line,
Bool, and the orderable numeric kinds (Number, Integral, Int). -/
inductive FieldClass where
  | plain
  | text
  | textline
  | password
  | boolF
  | number
  | integral
  | intF
deriving DecidableEq, Repr

/-- Modelled from the spec: the field classes that compose the Orderable
mixin, carrying `min` and `max` bounds. -/
def orderable : FieldClass → Bool
  | .number => true
  | .integral => true
  | .intF => true
  | _ => false

/-- A target object the field is bound to or stores values on: its own
attribute storage, keyed by attribute name, plus an object identity. -/
structure Target where
  ident : Nat
  store : List (String × PyVal)
deriving DecidableEq, Repr

/-- Attribute lookup on a target object's own storage. -/
def storeLookup : List (String × PyVal) → String → Option PyVal
  | [], _ => none
  | (k, v) :: rest, n => if k = n then some v else storeLookup rest n

/-- Attribute write on a target object's own storage. -/
def storePut : List (String × PyVal) → String → PyVal → List (String × PyVal)
  | [], n, v => [(n, v)]
  | (k, w) :: rest, n, v =>
    if k = n then (n, v) :: rest else (k, w) :: storePut rest n v

/-- Modelled from the spec: a default factory callable. It may declare
itself context-aware (providing IContextAwareDefaultFactory), in which case
it is called with the field's bound context (possibly None); otherwise it is
called with no arguments.  `ident` is the callable's object identity, which
is what field equality compares. -/
structure FactoryFn where
  contextAware : Bool
  callWithContext : Option Target → PyVal
  callNoArgs : PyVal
  ident : Nat

/-- Modelled from the spec: the outcome of invoking a user-supplied
constraint predicate on a value: it returns a boolean, raises the
StopValidation signal, or raises some ValidationError of its own. -/
inductive ConstraintOutcome where
  | result (b : Bool)
  | stopValidation
  | raiseError (k : VKind)
deriving DecidableEq, Repr

/-- Modelled from the spec: the default constraint, a predicate that is
always true. -/
def defaultConstraint : PyVal → ConstraintOutcome :=
  fun _ => .result true

/-- Modelled from the spec: a Field specification object with the
configuration attributes the claims are about: its concrete class, title,
description, `__name__` (here `name`), required, readonly, the user
constraint predicate, the static default, the optional default factory, the
missing-value sentinel, the bound context, the construction-order counter
value, and the Orderable `min`/`max` bounds (None on non-orderable kinds).
Constructor defaults mirror the Python `Field.__init__` defaults. -/
structure Field where
  klass : FieldClass
  title : String := ""
  description : String := ""
  name : String := ""
  required : Bool := true
  readonly : Bool := false
  constraint : PyVal → ConstraintOutcome := defaultConstraint
  default : PyVal := .pynone
  defaultFactory : Option FactoryFn := none
  missing_value : PyVal := .pynone
  context : Option Target := none
  order : Nat := 0
  min : Option PyVal := none
  max : Option PyVal := none

/-- Is the value a text string (the `_type` of Text, TextLine, Password)? -/
def isStr : PyVal → Bool
  | .pystr _ => true
  | _ => false

/-- Is the value an int in Python's sense (bool is a subtype of int)? -/
def isIntLike : PyVal → Bool
  | .pyint _ => true
  | .pybool _ => true
  | _ => false

/-- Modelled from the spec: the base `_validate` type check per concrete
class — the configured `_type` for the text kinds, bool and the numeric
kinds (numbers embedded as ints; Bool accepts ints because its `_validate`
coerces them), and no type check on the Field base itself. -/
def typeCheck : FieldClass → PyVal → Bool
  | .plain, _ => true
  | .text, v => isStr v
  | .textline, v => isStr v
  | .password, v => isStr v
  | .boolF, v => isIntLike v
  | .number, v => isIntLike v
  | .integral, v => isIntLike v
  | .intF, v => isIntLike v

/-- Modelled from the spec (Orderable `_validate`): after the base checks,
fail TooSmall when `min` is configured and the value is below it, then fail
TooBig when `max` is configured and the value is above it. -/
def boundsCheck (f : Field) (v : PyVal) : Bool × Bool :=
  ((match f.min with | some m => pyValLt v m | none => false),
   (match f.max with | some m => pyValLt m v | none => false))

/-- The outcome of `validate`: success, or a raised ValidationError of the
given kind. -/
inductive VOutcome where
  | ok
  | raise (k : VKind)
deriving DecidableEq, Repr

/-- Modelled from the spec: whether a Password field's bound target already
has a stored value under the field's name (unbound fields have none). -/
def passwordExisting (f : Field) : Bool :=
  match f.context with
  | some t => (storeLookup t.store f.name).isSome
  | none => false

/-- Modelled from the spec: the `_validate` body shared by the field kinds —
the type check (failing WrongType), then the user constraint (a raised
StopValidation is swallowed as early success, skipping every later check; a
falsy result fails ConstraintNotSatisfied; a raised validation error
propagates), then, on orderable kinds, the Orderable bound checks. -/
def Field.validateBody (f : Field) (v : PyVal) : VOutcome :=
  if typeCheck f.klass v = false then .raise .wrongType
  else
    match f.constraint v with
    | .stopValidation => .ok
    | .raiseError k => .raise k
    | .result false => .raise .constraintNotSatisfied
    | .result true =>
      if orderable f.klass then
        if (boundsCheck f v).1 = true then .raise .tooSmall
        else if (boundsCheck f v).2 = true then .raise .tooBig
        else .ok
      else .ok

/-- Modelled from the spec: the `validate` orchestration.  The Password
override runs first: its UNCHANGED_PASSWORD token passes when the bound
target already has a stored value.  Then the base pipeline: a value equal to
`missing_value` fails RequiredMissing when the field is required and passes
with no further checks otherwise; any other value goes through
`validateBody`. -/
def Field.validate (f : Field) (v : PyVal) : VOutcome :=
  if f.klass = .password ∧ v = .unchangedPassword ∧ passwordExisting f = true then .ok
  else if pyEq v f.missing_value then
    (if f.required then .raise .requiredMissing else .ok)
  else Field.validateBody f v

/-- The outcome of `set`: the updated target, a TypeError on a readonly
field, or a validation failure. -/
inductive SetOutcome where
  | stored (t : Target)
  | readonlyError
  | invalid (k : VKind)
deriving DecidableEq, Repr

/-- Modelled from the spec: `set` writes a validated value into the target's
own storage under the field's name, failing on readonly fields; the
Password override returns first, without touching storage, when the value is
the UNCHANGED_PASSWORD token. -/
def Field.set (f : Field) (t : Target) (v : PyVal) : SetOutcome :=
  if f.klass = .password ∧ v = .unchangedPassword then .stored t
  else if f.readonly then .readonlyError
  else
    match Field.validate f v with
    | .ok => .stored { t with store := storePut t.store f.name v }
    | .raise k => .invalid k

/-- Modelled from the spec: `bind(context)` returns a clone of the field —
same concrete class, identical configuration — whose `context` is the given
object; in this pure embedding the original field value is untouched by
construction. -/
def Field.bind (f : Field) (c : Target) : Field :=
  { f with context := some c }

/-- Modelled from the spec: `defaultFactory` identity comparison (field
equality compares the factory by identity, not by behaviour). -/
def factoryEq : Option FactoryFn → Option FactoryFn → Bool
  | none, none => true
  | some a, some b => decide (a.ident = b.ident)
  | _, _ => false

/-- Python `==` lifted to optional values (absent bounds are equal only to
absent bounds). -/
def optPyEq : Option PyVal → Option PyVal → Bool
  | none, none => true
  | some a, some b => pyEq a b
  | _, _ => false

/-- Modelled from the spec: `Field.__eq__` — True iff the two fields are of
the exact same concrete class and agree on every configuration attribute
(title, description, `__name__`, required, readonly, default,
defaultFactory identity, missing_value, and the min/max bounds when the
class carries them); `order` and `context` do not take part. -/
def fieldEq (f g : Field) : Bool :=
  decide (f.klass = g.klass) && decide (f.title = g.title) &&
  decide (f.description = g.description) && decide (f.name = g.name) &&
  decide (f.required = g.required) && decide (f.readonly = g.readonly) &&
  pyEq f.default g.default && factoryEq f.defaultFactory g.defaultFactory &&
  pyEq f.missing_value g.missing_value &&
  (if orderable f.klass then optPyEq f.min g.min && optPyEq f.max g.max else true)

/-- The configuration property names shared by every field kind. -/
def baseNames : List String :=
  ["title", "description", "__name__", "required", "readonly",
   "default", "defaultFactory", "missing_value"]

/-- Modelled from the spec: the set of configured property names of a field
class — the base configuration names plus `min`/`max` on orderable kinds. -/
def propertyNames (k : FieldClass) : List String :=
  baseNames ++ (if orderable k then ["min", "max"] else [])

/-- A hash of a list of property names. -/
def namesHash (ns : List String) : Nat :=
  ns.foldl (fun h s => h * 31 + s.length) 7

/-- Modelled from the spec: `Field.__hash__` depends only on the set of
configured property names, not on any attribute values. -/
def fieldHash (f : Field) : Nat :=
  namesHash (propertyNames f.klass)

/-- Modelled from the spec: `Bool.fromUnicode` parses exactly the strings
True and true to True and every other string to False. -/
def boolParse (s : String) : Bool :=
  s == "True" || s == "true"

/-- The result of `fromUnicode`: a parsed value or a raised error. -/
inductive ParseResult where
  | value (v : PyVal)
  | error (k : VKind)
deriving DecidableEq, Repr

/-- Modelled from the spec: `Bool.fromUnicode` — parse the string to a bool,
validate the parsed value against the field, and return it. -/
def boolFromUnicode (f : Field) (s : String) : ParseResult :=
  match Field.validate f (.pybool (boolParse s)) with
  | .ok => .value (.pybool (boolParse s))
  | .raise k => .error k

/-- Modelled from the spec: the state the default-resolving accessor reads —
the value stored under the private name in the instance's dict (absent when
never stored), the instance's defaultFactory, missing_value, and bound
context. -/
structure DPInst where
  stored : Option PyVal
  defaultFactory : Option FactoryFn
  missing_value : PyVal
  context : Option Target

/-- The result of a default-resolving read: a value, a lookup failure
(KeyError: no stored value and no factory), or a failed check on the
factory's resolved value. -/
inductive DPResult where
  | value (v : PyVal)
  | lookupFailure
  | checkFailed (k : VKind)
deriving DecidableEq, Repr

/-- A default-resolving read together with how many times it invoked the
default factory. -/
structure DPRead where
  result : DPResult
  factoryCalls : Nat
deriving DecidableEq, Repr

/-- Modelled from the spec: the value a default factory resolves to on one
invocation — a context-aware factory is called with the instance's bound
context, any other factory with no arguments. -/
def resolvedValue (fac : FactoryFn) (inst : DPInst) : PyVal :=
  if fac.contextAware then fac.callWithContext inst.context else fac.callNoArgs

/-- Modelled from the spec: one read through the default-resolving accessor.
With no factory configured, the stored value is returned, or the read fails
with a lookup failure when none exists.  With a factory configured it is
invoked (once per read — the accessor keeps no cache, so nothing is
memoized); a resolved value equal to `missing_value` makes resolution fall
back to the static (stored) default, any other resolved value is passed
through the configured check before being returned. -/
def defaultRead (check : PyVal → Option VKind) (inst : DPInst) : DPRead :=
  match inst.defaultFactory with
  | none =>
    match inst.stored with
    | some v => ⟨.value v, 0⟩
    | none => ⟨.lookupFailure, 0⟩
  | some fac =>
    let v := resolvedValue fac inst
    if pyEq v inst.missing_value then
      ⟨(match inst.stored with | some d => .value d | none => .lookupFailure), 1⟩
    else
      match check v with
      | none => ⟨.value v, 1⟩
      | some k => ⟨.checkFailed k, 1⟩

/-- A plain Field with all constructor defaults (required, not readonly,
always-true constraint, None default and missing value). -/
def plainField : Field :=
  { klass := .plain, order := 1 }

/-- A plain Field whose user constraint raises StopValidation on every
value. -/
def stopField : Field :=
  { klass := .plain, order := 2, constraint := fun _ => .stopValidation }

/-- An Integral field with the spec's example bounds min=10 and max=20. -/
def boundedIntField : Field :=
  { klass := .integral, order := 3, min := some (.pyint 10), max := some (.pyint 20) }

/-- A target object that already stores a password under the name
`password`. -/
def pwTarget : Target :=
  { ident := 7, store := [("password", .pystr "foobar")] }

/-- A Password field named `password` bound to `pwTarget`. -/
def pwBoundField : Field :=
  { klass := .password, name := "password", order := 4, context := some pwTarget }

/-- A Password field named `password` that is not bound to any target. -/
def pwUnboundField : Field :=
  { klass := .password, name := "password", order := 5 }

/-- A Bool field with all constructor defaults. -/
def boolField : Field :=
  { klass := .boolF, order := 6 }

/-- A first TooBig error instance: args (1,), identity 0. -/
def vErrA : ValidationError :=
  { kind := .tooBig, args := [.pyint 1], fieldRef := none, value := none, ident := 0 }

/-- A TooSmall error instance constructed independently of `vErrA`, with the
same args (1,) but its own object identity 1. -/
def vErrB : ValidationError :=
  { kind := .tooSmall, args := [.pyint 1], fieldRef := none, value := none, ident := 1 }

/-- C2: two ValidationError instances of different concrete subclasses with
equal args are `==`-equal, yet their (identity-based) hashes differ: the
hash half of the claim fails on `_bootstrapinterfaces.py`, whose own comment
notes that `__hash__` is probably inconsistent with `__eq__`. -/
theorem C2_counterexample :
    ValidationError.eqObj vErrA (ValidationError.toObj vErrB) = true ∧
    ValidationError.pyHash vErrA ≠ ValidationError.pyHash vErrB := by
  decide

/-- C2 (amended): for every two ValidationError instances, `e1 == e2` holds
iff their args tuples are `==`-equal, independent of the concrete subclass,
the `field` and `value` back-references and the object identity; but the
hash is the inherited identity hash, so `hash(e1) == hash(e2)` holds iff the
two instances have the same object identity, not whenever they are equal. -/
theorem C2_amended_thm (e1 e2 : ValidationError) :
    (ValidationError.eqObj e1 (ValidationError.toObj e2) = true ↔
      argsEq e1.args e2.args = true) ∧
    (∀ k f v i,
      ValidationError.eqObj
        { e1 with kind := k, fieldRef := f, value := v, ident := i }
        (ValidationError.toObj e2)
        = ValidationError.eqObj e1 (ValidationError.toObj e2)) ∧
    (ValidationError.pyHash e1 = ValidationError.pyHash e2 ↔ e1.ident = e2.ident) := by
  refine ⟨Iff.rfl, fun k f v i => rfl, Iff.rfl⟩

/-- C9: for every ValidationError `e` and every object `o`, `e < o` is True
whenever `o` lacks an `args` attribute (such objects sort greater than every
ValidationError), and when `o` has `args` then `e < o` holds iff
`e.args < o.args` under Python tuple comparison. -/
theorem C9_thm (e : ValidationError) :
    (∀ i, ValidationError.lt e (.withoutArgs i) = true) ∧
    (∀ a, ValidationError.lt e (.withArgs a) = true ↔ argsLt e.args a = true) := by
  exact ⟨fun i => rfl, fun a => Iff.rfl⟩

/-- Only `unchangedPassword` itself is Python-`==`-equal to the
UNCHANGED_PASSWORD sentinel (it is a plain object compared by identity). -/
theorem pyEq_unchanged_iff (x : PyVal) :
    pyEq .unchangedPassword x = true ↔ x = .unchangedPassword := by
  cases x <;> simp [pyEq, numVal]

/-- The Password class does not compose the Orderable mixin. -/
theorem orderable_ne_password (k : FieldClass) (h : orderable k = true) :
    k ≠ .password := by
  cases k <;> simp_all [orderable]

/-- On the orderable kinds the type check is the int check. -/
theorem typeCheck_orderable (k : FieldClass) (h : orderable k = true) (v : PyVal) :
    typeCheck k v = isIntLike v := by
  cases k <;> simp_all [orderable, typeCheck]

/-- Int-like values have a numeric value. -/
theorem isIntLike_numVal (v : PyVal) (h : isIntLike v = true) :
    ∃ x, numVal v = some x := by
  cases v <;> simp_all [isIntLike, numVal]

/-- Transitivity of the embedded Python `<` through a numeric middle
value. -/
theorem pyValLt_trans_mid (a b c : PyVal) (y : Int) (hb : numVal b = some y)
    (hab : pyValLt a b = true) (hbc : pyValLt b c = true) :
    pyValLt a c = true := by
  cases a <;> cases b <;> cases c <;>
    simp_all [pyValLt, numVal] <;> omega

/-- C6: binding a field to a context yields a field of the same concrete
class whose `context` is exactly the given object and whose every other
configuration attribute equals the original's; the embedding is pure, so
the original field is untouched. -/
theorem C6_thm (f : Field) (c : Target) :
    (Field.bind f c).context = some c ∧
    (Field.bind f c).klass = f.klass ∧
    (Field.bind f c).title = f.title ∧
    (Field.bind f c).description = f.description ∧
    (Field.bind f c).name = f.name ∧
    (Field.bind f c).required = f.required ∧
    (Field.bind f c).readonly = f.readonly ∧
    (Field.bind f c).constraint = f.constraint ∧
    (Field.bind f c).default = f.default ∧
    (Field.bind f c).defaultFactory = f.defaultFactory ∧
    (Field.bind f c).missing_value = f.missing_value ∧
    (Field.bind f c).order = f.order ∧
    (Field.bind f c).min = f.min ∧
    (Field.bind f c).max = f.max := by
  exact ⟨rfl, rfl, rfl, rfl, rfl, rfl, rfl, rfl, rfl, rfl, rfl, rfl, rfl, rfl⟩

/-- C4: when the user constraint raises StopValidation on a present
(non-missing), type-correct value, `validate` succeeds: the signal is
treated as an early pass and never reaches the caller. -/
theorem C4_thm (f : Field) (v : PyVal)
    (hpresent : pyEq v f.missing_value = false)
    (htype : typeCheck f.klass v = true)
    (hstop : f.constraint v = .stopValidation) :
    Field.validate f v = .ok := by
  unfold Field.validate
  by_cases hpw : f.klass = .password ∧ v = .unchangedPassword ∧ passwordExisting f = true
  · simp [hpw]
  · simp only [if_neg hpw, hpresent, Bool.false_eq_true, if_false]
    unfold Field.validateBody
    simp [htype, hstop]

/-- C4 witness: a plain field whose constraint raises StopValidation
validates the value 1 successfully. -/
theorem C4_witness :
    pyEq (.pyint 1) stopField.missing_value = false ∧
    typeCheck stopField.klass (.pyint 1) = true ∧
    stopField.constraint (.pyint 1) = .stopValidation ∧
    Field.validate stopField (.pyint 1) = .ok :=
  ⟨by decide, by decide, rfl, C4_thm stopField (.pyint 1) (by decide) (by decide) rfl⟩

/-- C3: for a field whose missing sentinel is not the Password
UNCHANGED_PASSWORD sentinel (the spec keeps the two sentinels distinct),
validating a value `==`-equal to `missing_value` raises RequiredMissing
when the field is required, and succeeds with no further checks — the
constraint is never consulted — when it is not. -/
theorem C3_thm (f : Field) (v : PyVal)
    (hwf : f.missing_value ≠ .unchangedPassword)
    (hmiss : pyEq v f.missing_value = true) :
    (f.required = true → Field.validate f v = .raise .requiredMissing) ∧
    (f.required = false → Field.validate f v = .ok) := by
  have hpw : ¬ (f.klass = .password ∧ v = .unchangedPassword ∧ passwordExisting f = true) := by
    rintro ⟨hk, hv, hex⟩
    subst hv
    exact hwf ((pyEq_unchanged_iff f.missing_value).mp hmiss)
  constructor <;> intro hreq <;>
    simp [Field.validate, hpw, hmiss, hreq]

/-- C3 witness: a plain required field (with an always-true default
constraint replaced by an always-false one would behave the same, since the
constraint is never consulted) rejects None with RequiredMissing; the same
field with required set to False accepts None. -/
theorem C3_witness :
    (plainField.missing_value ≠ .unchangedPassword ∧
      pyEq .pynone plainField.missing_value = true ∧
      plainField.required = true ∧
      Field.validate plainField .pynone = .raise .requiredMissing) ∧
    ({ plainField with required := false, constraint := fun _ => .result false }.missing_value
        ≠ .unchangedPassword ∧
      Field.validate { plainField with required := false, constraint := fun _ => .result false }
        .pynone = .ok) := by
  have h1 := C3_thm plainField .pynone (by decide) (by decide)
  have h2 := C3_thm
    { plainField with required := false, constraint := fun _ => .result false }
    .pynone (by decide) (by decide)
  exact ⟨⟨by decide, by decide, rfl, h1.1 rfl⟩, ⟨by decide, h2.2 rfl⟩⟩

/-- The validation outcome of an orderable field on a present, type-correct
value under the default constraint is exactly the Orderable bound check. -/
theorem validate_orderable_char (f : Field) (v : PyVal)
    (horder : orderable f.klass = true)
    (hcons : f.constraint = defaultConstraint)
    (hpresent : pyEq v f.missing_value = false)
    (htype : typeCheck f.klass v = true) :
    Field.validate f v =
      (if (boundsCheck f v).1 = true then VOutcome.raise .tooSmall
       else if (boundsCheck f v).2 = true then VOutcome.raise .tooBig
       else .ok) := by
  have hpw : ¬ (f.klass = .password ∧ v = .unchangedPassword ∧ passwordExisting f = true) := by
    rintro ⟨hk, -, -⟩
    exact orderable_ne_password f.klass horder hk
  unfold Field.validate Field.validateBody
  rw [if_neg hpw, hcons]
  simp [hpresent, htype, horder, defaultConstraint]

/-- C7: on an orderable field with configured bounds (a nonempty range, the
default always-true constraint), for present, type-correct values:
validation fails TooSmall exactly when the value is below `min`, fails
TooBig exactly when it is above `max`, and succeeds whenever the value
violates neither bound — so values equal to either bound, and values
between them, pass. -/
theorem C7_thm (f : Field) (v : PyVal)
    (horder : orderable f.klass = true)
    (hcons : f.constraint = defaultConstraint)
    (hpresent : pyEq v f.missing_value = false)
    (htype : typeCheck f.klass v = true)
    (hcompat : ∀ m M, f.min = some m → f.max = some M → pyValLt M m = false) :
    (∀ m, f.min = some m → (Field.validate f v = .raise .tooSmall ↔ pyValLt v m = true)) ∧
    (∀ M, f.max = some M → (Field.validate f v = .raise .tooBig ↔ pyValLt M v = true)) ∧
    ((∀ m, f.min = some m → pyValLt v m = false) →
     (∀ M, f.max = some M → pyValLt M v = false) →
     Field.validate f v = .ok) := by
  have hy : ∃ x, numVal v = some x := by
    refine isIntLike_numVal v ?ht
    rw [← typeCheck_orderable f.klass horder v]
    exact htype
  obtain ⟨y, hy⟩ := hy
  have hchar := validate_orderable_char f v horder hcons hpresent htype
  refine ⟨?mn, ?mx, ?ok⟩
  · intro m hm
    rw [hchar]
    by_cases hlt : pyValLt v m = true
    · simp [boundsCheck, hm, hlt]
    · have hlt' : pyValLt v m = false := by simpa using hlt
      simp only [boundsCheck, hm, hlt', Bool.false_eq_true, if_false]
      constructor
      · intro hcontra
        by_cases h2 : (match f.max with | some m => pyValLt m v | none => false) = true <;>
          simp [h2] at hcontra
      · intro hcontra
        simp at hcontra
  · intro M hM
    rw [hchar]
    by_cases hMv : pyValLt M v = true
    · have hminfalse : (match f.min with | some m => pyValLt v m | none => false) = false := by
        cases hmn : f.min with
        | none => rfl
        | some m =>
          by_cases hvm : pyValLt v m = true
          · have : pyValLt M m = true := pyValLt_trans_mid M v m y hy hMv hvm
            rw [hcompat m M hmn hM] at this
            exact absurd this (by simp)
          · simpa using hvm
      simp [boundsCheck, hM, hminfalse, hMv]
    · have hMv' : pyValLt M v = false := by simpa using hMv
      simp only [boundsCheck, hM, hMv', Bool.false_eq_true, if_false]
      constructor
      · intro hcontra
        by_cases h1 : (match f.min with | some m => pyValLt v m | none => false) = true <;>
          simp [h1] at hcontra
      · intro hcontra
        simp at hcontra
  · intro hmins hmaxs
    rw [hchar]
    have h1 : (match f.min with | some m => pyValLt v m | none => false) = false := by
      cases hmn : f.min with
      | none => rfl
      | some m => exact hmins m hmn
    have h2 : (match f.max with | some m => pyValLt m v | none => false) = false := by
      cases hmx : f.max with
      | none => rfl
      | some M => exact hmaxs M hmx
    simp [boundsCheck, h1, h2]

/-- C7 witness: the spec's example — an Integral field with min 10 and
max 20 rejects 9 as TooSmall and 21 as TooBig, while 10, 15 and 20 pass. -/
theorem C7_witness :
    Field.validate boundedIntField (.pyint 9) = .raise .tooSmall ∧
    Field.validate boundedIntField (.pyint 21) = .raise .tooBig ∧
    Field.validate boundedIntField (.pyint 10) = .ok ∧
    Field.validate boundedIntField (.pyint 15) = .ok ∧
    Field.validate boundedIntField (.pyint 20) = .ok := by
  have hcompat : ∀ m M, boundedIntField.min = some m → boundedIntField.max = some M →
      pyValLt M m = false := by
    intro m M hm hM
    have hm' : m = .pyint 10 := by
      have : some (PyVal.pyint 10) = some m := hm
      exact (Option.some.inj this).symm
    have hM' : M = .pyint 20 := by
      have : some (PyVal.pyint 20) = some M := hM
      exact (Option.some.inj this).symm
    subst hm'
    subst hM'
    decide
  have h9 := C7_thm boundedIntField (.pyint 9) rfl rfl (by decide) (by decide) hcompat
  have h21 := C7_thm boundedIntField (.pyint 21) rfl rfl (by decide) (by decide) hcompat
  have h10 := C7_thm boundedIntField (.pyint 10) rfl rfl (by decide) (by decide) hcompat
  have h15 := C7_thm boundedIntField (.pyint 15) rfl rfl (by decide) (by decide) hcompat
  have h20 := C7_thm boundedIntField (.pyint 20) rfl rfl (by decide) (by decide) hcompat
  refine ⟨?_, ?_, ?_, ?_, ?_⟩
  · exact (h9.1 (.pyint 10) rfl).mpr (by decide)
  · exact (h21.2.1 (.pyint 20) rfl).mpr (by decide)
  · refine h10.2.2 ?_ ?_
    · intro m hm
      have hm' : m = .pyint 10 := by
        have : some (PyVal.pyint 10) = some m := hm
        exact (Option.some.inj this).symm
      subst hm'
      decide
    · intro M hM
      have hM' : M = .pyint 20 := by
        have : some (PyVal.pyint 20) = some M := hM
        exact (Option.some.inj this).symm
      subst hM'
      decide
  · refine h15.2.2 ?_ ?_
    · intro m hm
      have hm' : m = .pyint 10 := by
        have : some (PyVal.pyint 10) = some m := hm
        exact (Option.some.inj this).symm
      subst hm'
      decide
    · intro M hM
      have hM' : M = .pyint 20 := by
        have : some (PyVal.pyint 20) = some M := hM
        exact (Option.some.inj this).symm
      subst hM'
      decide
  · refine h20.2.2 ?_ ?_
    · intro m hm
      have hm' : m = .pyint 10 := by
        have : some (PyVal.pyint 10) = some m := hm
        exact (Option.some.inj this).symm
      subst hm'
      decide
    · intro M hM
      have hM' : M = .pyint 20 := by
        have : some (PyVal.pyint 20) = some M := hM
        exact (Option.some.inj this).symm
      subst hM'
      decide

/-- C8: for a Password field whose missing sentinel is distinct from the
UNCHANGED_PASSWORD sentinel (the spec's two sentinels are different
objects), setting the UNCHANGED_PASSWORD token is a no-op that leaves the
target's storage untouched; validating the token succeeds exactly when the
bound target already stores a value under the field's name, and fails
WrongType when the field is unbound or nothing is stored. -/
theorem C8_thm (f : Field) (t : Target)
    (hklass : f.klass = .password)
    (hwf : f.missing_value ≠ .unchangedPassword) :
    Field.set f t .unchangedPassword = .stored t ∧
    (Field.validate f .unchangedPassword = .ok ↔ passwordExisting f = true) ∧
    (passwordExisting f = false →
      Field.validate f .unchangedPassword = .raise .wrongType) := by
  have hset : Field.set f t .unchangedPassword = .stored t := by
    simp [Field.set, hklass]
  have hne : pyEq .unchangedPassword f.missing_value = false := by
    cases hb : pyEq .unchangedPassword f.missing_value with
    | false => rfl
    | true => exact absurd ((pyEq_unchanged_iff f.missing_value).mp hb) hwf
  have hbody : Field.validateBody f .unchangedPassword = .raise .wrongType := by
    unfold Field.validateBody
    simp [hklass, typeCheck, isStr]
  by_cases hex : passwordExisting f = true
  · have hok : Field.validate f .unchangedPassword = .ok := by
      simp [Field.validate, hklass, hex]
    refine ⟨hset, by simp [hok, hex], ?c⟩
    intro hcontra
    rw [hex] at hcontra
    exact absurd hcontra (by simp)
  · have hex' : passwordExisting f = false := by simpa using hex
    have hvv : Field.validate f .unchangedPassword = .raise .wrongType := by
      unfold Field.validate
      rw [if_neg (by rintro ⟨-, -, h3⟩; rw [hex'] at h3; exact absurd h3 (by simp))]
      simp [hne, hbody]
    refine ⟨hset, ?b, fun _ => hvv⟩
    rw [hvv, hex']
    simp

/-- C8 witness: a bound Password field with a stored password accepts the
UNCHANGED_PASSWORD token without touching storage, while the same field
unbound rejects the token as WrongType. -/
theorem C8_witness :
    (Field.set pwBoundField pwTarget .unchangedPassword = .stored pwTarget ∧
      Field.validate pwBoundField .unchangedPassword = .ok) ∧
    Field.validate pwUnboundField .unchangedPassword = .raise .wrongType := by
  have hb := C8_thm pwBoundField pwTarget rfl (by decide)
  have hu := C8_thm pwUnboundField pwTarget rfl (by decide)
  exact ⟨⟨hb.1, hb.2.1.mpr (by decide)⟩, hu.2.2 (by decide)⟩

/-- C10: on a Bool field with the default constraint and missing value,
`fromUnicode` is total — it validates and returns a parsed boolean for
every string, True exactly for the strings True and true, False for every
other string. -/
theorem C10_thm (f : Field) (s : String)
    (hk : f.klass = .boolF)
    (hcons : f.constraint = defaultConstraint)
    (hm : f.missing_value = .pynone) :
    boolFromUnicode f s = .value (.pybool (boolParse s)) ∧
    (boolParse s = true ↔ (s = "True" ∨ s = "true")) := by
  have hpw : ¬ (f.klass = .password ∧ (PyVal.pybool (boolParse s)) = .unchangedPassword ∧
      passwordExisting f = true) := by
    rintro ⟨hkp, -, -⟩
    rw [hk] at hkp
    exact FieldClass.noConfusion hkp
  have hne : pyEq (.pybool (boolParse s)) f.missing_value = false := by
    rw [hm]
    cases boolParse s <;> rfl
  have hval : Field.validate f (.pybool (boolParse s)) = .ok := by
    unfold Field.validate Field.validateBody
    rw [if_neg hpw, hcons]
    simp [hne, hk, typeCheck, isIntLike, defaultConstraint, orderable]
  constructor
  · unfold boolFromUnicode
    rw [hval]
  · simp [boolParse]

/-- C10 witness: the Bool field parses True and true to True, and 1, 0,
False, false and the empty string to False, raising nothing. -/
theorem C10_witness :
    boolFromUnicode boolField "True" = .value (.pybool true) ∧
    boolFromUnicode boolField "true" = .value (.pybool true) ∧
    boolFromUnicode boolField "1" = .value (.pybool false) ∧
    boolFromUnicode boolField "0" = .value (.pybool false) ∧
    boolFromUnicode boolField "False" = .value (.pybool false) ∧
    boolFromUnicode boolField "false" = .value (.pybool false) ∧
    boolFromUnicode boolField "" = .value (.pybool false) := by
  have h := (C10_thm boolField "True" rfl rfl rfl).1
  refine ⟨?_, by decide, by decide, by decide, by decide, by decide, by decide⟩
  rw [h]
  decide

/-- C5: the default-resolving read.  A configured factory takes precedence
and is invoked exactly once per read (the accessor holds no cache, so
nothing is ever memoized); a context-aware factory receives the bound
context while any other factory is called with no arguments; the resolved
value passes through the configured check before being returned, except
that a resolved value equal to `missing_value` makes resolution fall back
to the stored static default; with no factory, the stored value is
returned, and with neither a factory nor a stored value the read fails
with a lookup failure rather than returning a value. -/
theorem C5_thm (check : PyVal → Option VKind) (inst : DPInst) :
    (inst.defaultFactory = none → inst.stored = none →
      defaultRead check inst = ⟨.lookupFailure, 0⟩) ∧
    (∀ v, inst.defaultFactory = none → inst.stored = some v →
      defaultRead check inst = ⟨.value v, 0⟩) ∧
    (∀ fac, inst.defaultFactory = some fac →
      (defaultRead check inst).factoryCalls = 1) ∧
    (∀ fac, inst.defaultFactory = some fac → fac.contextAware = true →
      resolvedValue fac inst = fac.callWithContext inst.context) ∧
    (∀ fac, inst.defaultFactory = some fac → fac.contextAware = false →
      resolvedValue fac inst = fac.callNoArgs) ∧
    (∀ fac, inst.defaultFactory = some fac →
      pyEq (resolvedValue fac inst) inst.missing_value = false →
      check (resolvedValue fac inst) = none →
      (defaultRead check inst).result = .value (resolvedValue fac inst)) ∧
    (∀ fac k, inst.defaultFactory = some fac →
      pyEq (resolvedValue fac inst) inst.missing_value = false →
      check (resolvedValue fac inst) = some k →
      (defaultRead check inst).result = .checkFailed k) ∧
    (∀ fac, inst.defaultFactory = some fac →
      pyEq (resolvedValue fac inst) inst.missing_value = true →
      (defaultRead check inst).result =
        (match inst.stored with
         | some d => DPResult.value d
         | none => DPResult.lookupFailure)) := by
  refine ⟨?_, ?_, ?_, ?_, ?_, ?_, ?_, ?_⟩
  · intro h1 h2
    simp [defaultRead, h1, h2]
  · intro v h1 h2
    simp [defaultRead, h1, h2]
  · intro fac h1
    by_cases hv : pyEq (resolvedValue fac inst) inst.missing_value = true
    · simp [defaultRead, h1, hv]
    · have hv' : pyEq (resolvedValue fac inst) inst.missing_value = false := by
        simpa using hv
      cases hcv : check (resolvedValue fac inst) <;>
        simp [defaultRead, h1, hv', hcv]
  · intro fac h1 hca
    simp [resolvedValue, hca]
  · intro fac h1 hca
    simp [resolvedValue, hca]
  · intro fac h1 hne hc
    simp [defaultRead, h1, hne, hc]
  · intro fac k h1 hne hc
    simp [defaultRead, h1, hne, hc]
  · intro fac h1 hv
    cases h2 : inst.stored <;> simp [defaultRead, h1, hv, h2]

/-- Two equal fields are of the same concrete class. -/
theorem fieldEq_klass (f g : Field) (h : fieldEq f g = true) :
    f.klass = g.klass := by
  simp only [fieldEq, Bool.and_eq_true, decide_eq_true_eq] at h
  exact h.1.1.1.1.1.1.1.1.1

/-- C1: field equality holds exactly when the two fields have the same
concrete class and agree on every configuration attribute — title,
description, name, required, readonly, default, defaultFactory identity,
missing_value, and the min/max bounds on classes that carry them — while
the hash depends only on the set of configured property names: equal fields
hash equal, classes with the same property names hash equal, and two fields
of the same class differing only in their titles are unequal yet hash
equal. -/
theorem C1_thm (f g : Field) :
    (fieldEq f g = true ↔
      (f.klass = g.klass ∧ f.title = g.title ∧ f.description = g.description ∧
       f.name = g.name ∧ f.required = g.required ∧ f.readonly = g.readonly ∧
       pyEq f.default g.default = true ∧
       factoryEq f.defaultFactory g.defaultFactory = true ∧
       pyEq f.missing_value g.missing_value = true ∧
       (orderable f.klass = true →
         optPyEq f.min g.min = true ∧ optPyEq f.max g.max = true))) ∧
    (fieldEq f g = true → fieldHash f = fieldHash g) ∧
    (propertyNames f.klass = propertyNames g.klass → fieldHash f = fieldHash g) ∧
    (f.klass = g.klass ∧ f.title ≠ g.title →
      fieldEq f g = false ∧ fieldHash f = fieldHash g) := by
  have hiff : fieldEq f g = true ↔
      (f.klass = g.klass ∧ f.title = g.title ∧ f.description = g.description ∧
       f.name = g.name ∧ f.required = g.required ∧ f.readonly = g.readonly ∧
       pyEq f.default g.default = true ∧
       factoryEq f.defaultFactory g.defaultFactory = true ∧
       pyEq f.missing_value g.missing_value = true ∧
       (orderable f.klass = true →
         optPyEq f.min g.min = true ∧ optPyEq f.max g.max = true)) := by
    by_cases ho : orderable f.klass = true
    · simp [fieldEq, Bool.and_eq_true, decide_eq_true_eq, ho, and_assoc]
    · have ho' : orderable f.klass = false := by simpa using ho
      simp [fieldEq, Bool.and_eq_true, decide_eq_true_eq, ho', and_assoc]
  have hhash : fieldEq f g = true → fieldHash f = fieldHash g := by
    intro h
    unfold fieldHash
    rw [fieldEq_klass f g h]
  refine ⟨hiff, hhash, ?names, ?titles⟩
  · intro h
    unfold fieldHash
    rw [h]
  · rintro ⟨hk, ht⟩
    constructor
    · cases hfe : fieldEq f g with
      | false => rfl
      | true => exact absurd (hiff.mp hfe).2.1 ht
    · unfold fieldHash
      rw [hk]

end ZSchema
